import Mathlib

/-!
Verification development for the QA agent core: the deterministic evidence
curator (`src/lib/evidenceBuilder.ts`), the mock sandbox execution layer
(`src/lib/execution.ts`), and the stage orchestrator
(`src/lib/orchestrator.ts`).

Strings are modelled as Lean `String` / `List Char` (sequences of Unicode
scalar values).  The two external LLM-backed operations of the Reasoning
collaborator (`diagnoseAndPlan`, `verifyFixWithLlm` in `src/lib/aiAgent.ts`)
are abstracted as oracle functions whose domain is exactly the data the
source serializes into the LLM messages; the Execution collaborator
(`runInSandbox`) is deterministic in the source and is embedded directly.
-/

set_option maxRecDepth 20000

/-- Whitespace set stripped by the JavaScript `String.prototype.trim`:
ASCII whitespace, NBSP, BOM, and the Unicode space separators plus the
line separators. -/
def isJsWs (c : Char) : Bool :=
  c == ' ' || c == '\t' || c == '\n' || c == '\r' || c == '\x0b' || c == '\x0c' ||
  c == ' ' || c == '﻿' || c == ' ' ||
  (0x2000 ≤ c.toNat && c.toNat ≤ 0x200A) ||
  c == ' ' || c == ' ' || c == ' ' || c == ' ' || c == '　'

/-- Leading-whitespace strip, first half of the JavaScript `trim`. -/
def trimStart (l : List Char) : List Char := l.dropWhile isJsWs

/-- Trailing-whitespace strip, second half of the JavaScript `trim`. -/
def trimEnd (l : List Char) : List Char := (l.reverse.dropWhile isJsWs).reverse

/-- The JavaScript `String.prototype.trim` on a character sequence. -/
def jsTrim (l : List Char) : List Char := trimEnd (trimStart l)

/-- ASCII lowercasing, as applied by `toLowerCase` / the `i` regex flag to
the ASCII-only search keywords used in the source. -/
def toLowerChar (c : Char) : Char :=
  if 'A' ≤ c && c ≤ 'Z' then Char.ofNat (c.toNat + 32) else c

/-- Lowercase an entire character sequence. -/
def toLowerL (l : List Char) : List Char := l.map toLowerChar

/-- `startsWithL hay pat`: does `hay` start with `pat`?  (JavaScript
`String.prototype.startsWith`.) -/
def startsWithL : List Char → List Char → Bool
  | _, [] => true
  | [], _ :: _ => false
  | c :: cs, p :: ps => c == p && startsWithL cs ps

/-- `containsSub pat hay`: does `hay` contain `pat` as a contiguous
substring?  (JavaScript `String.prototype.includes`.) -/
def containsSub (pat : List Char) : List Char → Bool
  | [] => pat.isEmpty
  | c :: cs => startsWithL (c :: cs) pat || containsSub pat cs

/-- `raw.split(/\r?\n/)`: split at each `"\n"`, also consuming an
immediately preceding `"\r"`; a `"\r"` not followed by `"\n"` stays in its
line. -/
def splitLines : List Char → List (List Char)
  | [] => [[]]
  | '\r' :: '\n' :: rest => [] :: splitLines rest
  | '\n' :: rest => [] :: splitLines rest
  | c :: rest =>
    match splitLines rest with
    | [] => [[c]]
    | l :: ls => (c :: l) :: ls

/-- `MAX_FRAMES` from `src/lib/evidenceBuilder.ts`. -/
def MAX_FRAMES : Nat := 5

/-- `MAX_CONTEXT_CHARS` from `src/lib/evidenceBuilder.ts`. -/
def MAX_CONTEXT_CHARS : Nat := 1200

/-- `VENDOR_PATTERNS` from `src/lib/evidenceBuilder.ts`. -/
def VENDOR_PATTERNS : List (List Char) :=
  ["node_modules".data, "internal/".data, "node:internal".data, "next/dist".data,
   "webpack".data, "core-js".data, "regenerator-runtime".data]

/-- `isVendorFrame` from `src/lib/evidenceBuilder.ts`: the (untrimmed) line
contains one of the vendor denylist substrings. -/
def isVendorFrame (line : List Char) : Bool :=
  VENDOR_PATTERNS.any (fun p => containsSub p line)

/-- The pattern searched by the `/error/i` test in `extractErrorMessage`. -/
def errorPat : List Char := "error".data

/-- The fixed placeholder used when the input has no non-empty line. -/
def fallbackMsg : List Char := "UnknownError: No error message found".data

/-- The loop of `extractErrorMessage`: first line whose trimmed form is
non-empty and case-insensitively contains `"error"`, returned trimmed. -/
def findErrorLine : List (List Char) → Option (List Char)
  | [] => none
  | l :: ls =>
    if (jsTrim l).isEmpty then findErrorLine ls
    else if containsSub errorPat (toLowerL (jsTrim l)) then some (jsTrim l)
    else findErrorLine ls

/-- `lines.find((l) => l.trim())`: the first line whose trimmed form is
non-empty, returned untrimmed. -/
def firstNonEmpty : List (List Char) → Option (List Char)
  | [] => none
  | l :: ls => if (jsTrim l).isEmpty then firstNonEmpty ls else some l

/-- `extractErrorMessage` from `src/lib/evidenceBuilder.ts`. -/
def extractErrorMessage (lines : List (List Char)) : List Char :=
  match findErrorLine lines with
  | some t => t.take 280
  | none => (jsTrim ((firstNonEmpty lines).getD fallbackMsg)).take 280

/-- The pattern of a stack-frame line: trimmed form starts with `"at "`. -/
def atPat : List Char := "at ".data

/-- `extractStackFrames` from `src/lib/evidenceBuilder.ts`: keep lines whose
trimmed form starts with `"at "`, prefer non-vendor frames (falling back to
the unfiltered list when every frame is vendor), keep at most
`MAX_FRAMES`, and trim each retained frame. -/
def extractStackFrames (lines : List (List Char)) : List (List Char) :=
  let rawFrames := lines.filter (fun line => startsWithL (jsTrim line) atPat)
  let nonVendor := rawFrames.filter (fun line => !isVendorFrame line)
  ((if 0 < nonVendor.length then nonVendor else rawFrames).take MAX_FRAMES).map jsTrim

/-- Character class `[^:()]` of the suspected-file regex. -/
def allowedBody (c : Char) : Bool := !(c == ':' || c == '(' || c == ')')

/-- The extension alternation `(?:tsx?|jsx?)` of the suspected-file regex:
`tsx?` is tried first and takes the optional `x` greedily, then `jsx?`. -/
def extAt : List Char → Option (List Char)
  | 't' :: 's' :: 'x' :: _ => some ['t', 's', 'x']
  | 't' :: 's' :: _ => some ['t', 's']
  | 'j' :: 's' :: 'x' :: _ => some ['j', 's', 'x']
  | 'j' :: 's' :: _ => some ['j', 's']
  | _ => none

/-- Lazy body extension of the suspected-file regex `\/[^:()]+?\.(?:tsx?|jsx?)`:
`acc` holds the (reversed, non-empty) body consumed so far; before each
further extension, first try to finish with `\.` plus an extension. -/
def bodyLoop (acc : List Char) : List Char → Option (List Char)
  | [] => none
  | '.' :: rest =>
    match extAt rest with
    | some e => some (acc.reverse ++ '.' :: e)
    | none => bodyLoop ('.' :: acc) rest
  | c :: rest => if allowedBody c then bodyLoop (c :: acc) rest else none

/-- Match of the suspected-file regex at a position directly after a `'/'`:
the body `[^:()]+?` consumes at least one character before the first
`\.extension` check. -/
def bodyScan : List Char → Option (List Char)
  | [] => none
  | c :: rest => if allowedBody c then bodyLoop [c] rest else none

/-- Leftmost match of `\/[^:()]+?\.(?:tsx?|jsx?)` in a line: try every
start position left to right; a position participates only if it holds a
`'/'` and the lazy body scan succeeds there. -/
def findPathMatch : List Char → Option (List Char)
  | [] => none
  | '/' :: rest =>
    (match bodyScan rest with
     | some m => some ('/' :: m)
     | none => findPathMatch rest)
  | _ :: rest => findPathMatch rest

/-- `guessSuspectedFile` from `src/lib/evidenceBuilder.ts`: first regex
match over the curated frames in order. -/
def guessSuspectedFile (frames : List (List Char)) : Option (List Char) :=
  frames.findSome? findPathMatch

/-- The `ContextPack` record from `src/lib/types.ts`. -/
structure ContextPack where
  error : String
  topFrames : List String
  suspectedFile : Option String
deriving DecidableEq

/-- Lowercase hexadecimal digit, for JSON `\u00xx` escapes. -/
def hexDigit (n : Nat) : Char := if n < 10 then Char.ofNat (48 + n) else Char.ofNat (87 + n)

/-- Escaping of one character inside a JSON string literal, as performed by
`JSON.stringify`. -/
def jsonEscapeChar (c : Char) : List Char :=
  if c == '"' then ['\\', '"']
  else if c == '\\' then ['\\', '\\']
  else if c == '\x08' then ['\\', 'b']
  else if c == '\x0c' then ['\\', 'f']
  else if c == '\n' then ['\\', 'n']
  else if c == '\r' then ['\\', 'r']
  else if c == '\t' then ['\\', 't']
  else if c.toNat < 32 then ['\\', 'u', '0', '0', hexDigit (c.toNat / 16), hexDigit (c.toNat % 16)]
  else [c]

/-- A JSON string literal (quotes plus escaped content). -/
def jsonStr (s : String) : List Char :=
  '"' :: (s.data.map jsonEscapeChar).flatten ++ ['"']

/-- Comma-join of already serialized JSON values. -/
def joinComma : List (List Char) → List Char
  | [] => []
  | [x] => x
  | x :: xs => x ++ ',' :: joinComma xs

/-- `JSON.stringify` of a `ContextPack`, with the source's insertion key
order `error`, `topFrames`, `suspectedFile`, and the `suspectedFile` key
omitted when the field is `undefined`. -/
def serCP (c : ContextPack) : List Char :=
  "\x7b\"error\":".data ++ jsonStr c.error ++
  ",\"topFrames\":[".data ++ joinComma (c.topFrames.map jsonStr) ++ "]".data ++
  (match c.suspectedFile with
   | none => []
   | some f => ",\"suspectedFile\":".data ++ jsonStr f) ++
  "\x7d".data

/-- The frame-trimming loop of `buildContextPack`: push frames one at a
time; the first push whose serialization exceeds `MAX_CONTEXT_CHARS` is
popped again and the loop stops. -/
def trimFrames (e : String) (sf : Option String) : List String → List String → List String
  | acc, [] => acc
  | acc, f :: fs =>
    if MAX_CONTEXT_CHARS < (serCP ⟨e, acc ++ [f], sf⟩).length then acc
    else trimFrames e sf (acc ++ [f]) fs

/-- The size-budget enforcement at the end of `buildContextPack`: when the
serialized record exceeds `MAX_CONTEXT_CHARS`, rebuild `topFrames` with the
trimming loop; otherwise return the record unchanged. -/
def enforceBudget (e : String) (fs : List String) (sf : Option String) : ContextPack :=
  if MAX_CONTEXT_CHARS < (serCP ⟨e, fs, sf⟩).length then ⟨e, trimFrames e sf [] fs, sf⟩
  else ⟨e, fs, sf⟩

/-- `buildContextPack` from `src/lib/evidenceBuilder.ts` (the `curate`
operation of the spec): split the raw text into lines, extract the error
message and the stack frames, infer the suspected file from the frames
selected before budget enforcement, then enforce the size budget. -/
def buildContextPack (rawStackTrace : String) : ContextPack :=
  let lines := splitLines rawStackTrace.data
  let error := extractErrorMessage lines
  let topFrames := extractStackFrames lines
  let suspectedFile := guessSuspectedFile topFrames
  enforceBudget (String.mk error) (topFrames.map String.mk) (suspectedFile.map String.mk)

/-- The `ExecutionResult` record from `src/lib/types.ts`. -/
structure ExecutionResult where
  success : Bool
  stdout : String
deriving DecidableEq

/-- Newline-join of lines, as in `stdoutLines.join('\n')`. -/
def joinNl : List (List Char) → List Char
  | [] => []
  | [x] => x
  | x :: xs => x ++ '\n' :: joinNl xs

/-- `runInSandbox` from `src/lib/execution.ts`: deterministic mock sandbox.
Success iff the lowercased repro steps contain `"tests green"` or
`"no error"`; the failure keywords and the default branch both leave
`success` false.  Total: defined for every input string. -/
def runInSandbox (reproSteps : String) : ExecutionResult :=
  let normalized := toLowerL reproSteps.data
  let success :=
    if containsSub "tests green".data normalized || containsSub "no error".data normalized then
      true
    else if containsSub "still failing".data normalized || containsSub "throws".data normalized then
      false
    else
      false
  let reproLine :=
    if (jsTrim reproSteps.data).isEmpty then "(no repro steps provided)".data
    else jsTrim reproSteps.data
  let stdoutLines : List (List Char) :=
    ["=== Sandboxed Execution (Mock) ===".data, [],
     "This is a deterministic, fake execution environment.".data,
     "No real user code or infrastructure is touched.".data, [],
     "--- Repro Script (high level) ---".data,
     reproLine, [],
     "--- Outcome ---".data] ++
    (if success then
      ["✅ All relevant steps completed without any simulated errors.".data,
       "✅ No error matching the original ContextPack was reproduced.".data]
     else
      ["⚠️ Repro appears to still expose issues or could not be validated.".data,
       "⚠️ Either the repro is incomplete or the proposed fix does not fully address the bug.".data])
  ⟨success, String.mk (joinNl stdoutLines)⟩

/-- The `DiagnosisResult` record from `src/lib/types.ts`. -/
structure DiagnosisResult where
  rootCause : String
  impactSummary : String
deriving DecidableEq

/-- The `ReproAndFix` record from `src/lib/types.ts`. -/
structure ReproAndFix where
  reproSteps : String
  fixSnippet : String
  notes : Option String
deriving DecidableEq

/-- The `VerificationResult` record from `src/lib/types.ts`. -/
structure VerificationResult where
  fixWorked : Bool
  explanation : String
deriving DecidableEq

/-- The `DiagnosePayload` shape returned by `diagnoseAndPlan` in
`src/lib/aiAgent.ts`. -/
structure DiagnosePayload where
  diagnosis : DiagnosisResult
  reproAndFix : ReproAndFix
deriving DecidableEq

/-- The `AgentRunResult` record from `src/lib/types.ts`. -/
structure AgentRunResult where
  contextPack : ContextPack
  diagnosis : DiagnosisResult
  reproAndFix : ReproAndFix
  execution : ExecutionResult
  verification : VerificationResult
deriving DecidableEq

/-- The Reasoning collaborator (`src/lib/aiAgent.ts` backed by the LLM
client): its two operations are oracles whose domains are exactly the data
the source serializes into the LLM calls, and which may fail (HTTP error or
unparseable content), modelled as `Except`. -/
structure Collaborators where
  diagnoseAndPlan : ContextPack → Except String DiagnosePayload
  verifyFixWithLlm : ContextPack → DiagnosisResult → ReproAndFix → ExecutionResult →
    Except String VerificationResult

/-- One collaborator invocation of the orchestrator, recording exactly the
arguments passed across the isolation boundary. -/
inductive CollabCall where
  | diagnoseCall (context : ContextPack)
  | executeCall (reproSteps : String)
  | verifyCall (context : ContextPack) (diagnosis : DiagnosisResult)
      (reproAndFix : ReproAndFix) (execution : ExecutionResult)
deriving DecidableEq

/-- `runQaAgent` from `src/lib/orchestrator.ts`: the linear
INGEST → CURATE_CONTEXT → DIAGNOSE → GENERATE_REPRO → EXECUTE → VERIFY
pipeline, returning the ordered trace of collaborator invocations together
with the run outcome (a thrown collaborator error propagates uncaught,
modelled as `Except.error`; no partial `AgentRunResult` exists). -/
def runQaAgent (collab : Collaborators) (rawStackTrace : String) :
    List CollabCall × Except String AgentRunResult :=
  let contextPack := buildContextPack rawStackTrace
  match collab.diagnoseAndPlan contextPack with
  | .error e => ([.diagnoseCall contextPack], .error e)
  | .ok payload =>
    let execution := runInSandbox payload.reproAndFix.reproSteps
    match collab.verifyFixWithLlm contextPack payload.diagnosis payload.reproAndFix execution with
    | .error e =>
      ([.diagnoseCall contextPack, .executeCall payload.reproAndFix.reproSteps,
        .verifyCall contextPack payload.diagnosis payload.reproAndFix execution], .error e)
    | .ok verification =>
      ([.diagnoseCall contextPack, .executeCall payload.reproAndFix.reproSteps,
        .verifyCall contextPack payload.diagnosis payload.reproAndFix execution],
       .ok ⟨contextPack, payload.diagnosis, payload.reproAndFix, execution, verification⟩)

/-- Concrete failing input for the size budget: an error line of 280
characters, 275 of which JSON-escape to `\u0001` (six characters each). -/
def c2FailingInput : String := String.mk ('e' :: 'r' :: 'r' :: 'o' :: 'r' :: List.replicate 275 '\x01')

/-- Concrete input whose error line alone blows the size budget while a
stack frame still supplies a suspected file. -/
def c10Raw : String :=
  String.mk ('E' :: 'r' :: 'r' :: 'o' :: 'r' :: (List.replicate 275 '\x01' ++ '\n' :: " at /a.ts:1:1".data))

/-- A Reasoning collaborator whose two operations always succeed with
fixed records. -/
def constCollab : Collaborators :=
  ⟨fun _ => Except.ok ⟨⟨"stale cache read", "users see a blank page"⟩,
      ⟨"open the page; observe the crash", "clear the cache before the read", none⟩⟩,
   fun _ _ _ _ => Except.ok ⟨true, "the sandbox run no longer shows the original failure"⟩⟩

/-- A Reasoning collaborator whose diagnosis operation always fails. -/
def failCollab : Collaborators :=
  ⟨fun _ => Except.error "LLM error (500): upstream failure",
   fun _ _ _ _ => Except.ok ⟨true, "ok"⟩⟩

/-- A diagnosis payload whose repro steps contain the sandbox success
keyword `"tests green"`. -/
def greenPayload : DiagnosePayload :=
  ⟨⟨"missing null check", "the feature page crashes"⟩,
   ⟨"apply the patch; rerun the suite; tests green", "add the null check", none⟩⟩

/-- A Reasoning collaborator returning `greenPayload` from diagnosis. -/
def greenCollab : Collaborators :=
  ⟨fun _ => Except.ok greenPayload,
   fun _ _ _ _ => Except.ok ⟨true, "fix verified"⟩⟩

theorem startsWithL_append (pat t b : List Char) (h : startsWithL t pat = true) :
    startsWithL (t ++ b) pat = true := by
  induction pat generalizing t with
  | nil => cases t ++ b <;> rfl
  | cons p ps ih =>
    cases t with
    | nil => simp [startsWithL] at h
    | cons c cs =>
      simp only [startsWithL, Bool.and_eq_true, beq_iff_eq] at h
      simp only [List.cons_append, startsWithL, Bool.and_eq_true, beq_iff_eq]
      exact ⟨h.1, ih cs h.2⟩

theorem containsSub_nil (b : List Char) : containsSub [] b = true := by
  cases b <;> rfl

theorem containsSub_append_right (pat t b : List Char) (h : containsSub pat t = true) :
    containsSub pat (t ++ b) = true := by
  induction t with
  | nil =>
    have : pat = [] := by
      simpa [containsSub, List.isEmpty_iff] using h
    subst this
    exact containsSub_nil b
  | cons c cs ih =>
    simp only [containsSub, Bool.or_eq_true] at h
    simp only [List.cons_append, containsSub, Bool.or_eq_true]
    rcases h with h | h
    · exact Or.inl (startsWithL_append pat _ b h)
    · exact Or.inr (ih h)

theorem containsSub_append_left (pat a t : List Char) (h : containsSub pat t = true) :
    containsSub pat (a ++ t) = true := by
  induction a with
  | nil => simpa using h
  | cons c cs ih =>
    simp only [List.cons_append, containsSub, Bool.or_eq_true]
    exact Or.inr ih

theorem trimEnd_decomp (m : List Char) :
    m = trimEnd m ++ (m.reverse.takeWhile isJsWs).reverse := by
  calc m = m.reverse.reverse := (List.reverse_reverse m).symm
    _ = (m.reverse.takeWhile isJsWs ++ m.reverse.dropWhile isJsWs).reverse := by
        rw [List.takeWhile_append_dropWhile]
    _ = (m.reverse.dropWhile isJsWs).reverse ++ (m.reverse.takeWhile isJsWs).reverse := by
        rw [List.reverse_append]
    _ = trimEnd m ++ (m.reverse.takeWhile isJsWs).reverse := rfl

theorem jsTrim_decomp (l : List Char) : ∃ a b, l = a ++ (jsTrim l ++ b) := by
  refine ⟨l.takeWhile isJsWs, ((trimStart l).reverse.takeWhile isJsWs).reverse, ?_⟩
  conv_lhs => rw [← List.takeWhile_append_dropWhile (p := isJsWs) (l := l)]
  congr 1
  exact trimEnd_decomp (trimStart l)

theorem containsSub_of_trim (p l : List Char)
    (h : containsSub p (toLowerL (jsTrim l)) = true) : containsSub p (toLowerL l) = true := by
  obtain ⟨a, b, hl⟩ := jsTrim_decomp l
  have hmap : toLowerL l = toLowerL a ++ (toLowerL (jsTrim l) ++ toLowerL b) := by
    conv_lhs => rw [hl]
    simp [toLowerL, List.map_append]
  rw [hmap]
  exact containsSub_append_left _ _ _ (containsSub_append_right _ _ _ h)

theorem findErrorLine_eq_none (lines : List (List Char))
    (h : ∀ l ∈ lines, containsSub errorPat (toLowerL l) = false) :
    findErrorLine lines = none := by
  induction lines with
  | nil => rfl
  | cons l ls ih =>
    have hl := h l (List.mem_cons_self l ls)
    have hr : ∀ x ∈ ls, containsSub errorPat (toLowerL x) = false :=
      fun x hx => h x (List.mem_cons_of_mem l hx)
    have hcs : containsSub errorPat (toLowerL (jsTrim l)) = false := by
      cases hc : containsSub errorPat (toLowerL (jsTrim l))
      · rfl
      · exact absurd (containsSub_of_trim _ _ hc) (by simp [hl])
    by_cases he : (jsTrim l).isEmpty = true
    · simp [findErrorLine, he, ih hr]
    · simp [findErrorLine, he, hcs, ih hr]

theorem extractStackFrames_eq_nil (lines : List (List Char))
    (h : ∀ l ∈ lines, startsWithL (jsTrim l) atPat = false) :
    extractStackFrames lines = [] := by
  have hfil : lines.filter (fun line => startsWithL (jsTrim line) atPat) = [] := by
    rw [List.filter_eq_nil_iff]
    intro a ha
    simp [h a ha]
  simp [extractStackFrames, hfil]

theorem trimFrames_length (e : String) (sf : Option String) (fs acc : List String) :
    (trimFrames e sf acc fs).length ≤ acc.length + fs.length := by
  induction fs generalizing acc with
  | nil => simp [trimFrames]
  | cons f fs ih =>
    unfold trimFrames
    split
    · simp
    · have h2 := ih (acc ++ [f])
      simp only [List.length_append, List.length_cons, List.length_nil] at h2 ⊢
      omega

theorem enforceBudget_topFrames_length (e : String) (fs : List String) (sf : Option String) :
    (enforceBudget e fs sf).topFrames.length ≤ fs.length := by
  unfold enforceBudget
  split
  · simpa using trimFrames_length e sf fs []
  · simp

theorem extractStackFrames_length_le (lines : List (List Char)) :
    (extractStackFrames lines).length ≤ MAX_FRAMES := by
  simp only [extractStackFrames, List.length_map, List.length_take]
  exact Nat.min_le_left _ _

/-- C1: Isolation.  The orchestrator builds every collaborator argument only
from the curated `ContextPack` and the collaborators' own earlier outputs,
never from the raw input: for any two raw inputs on which `buildContextPack`
yields equal `ContextPack`s, the two runs are identical, in particular every
collaborator call receives identical arguments. -/
theorem runQaAgent_isolation (collab : Collaborators) (raw1 raw2 : String)
    (h : buildContextPack raw1 = buildContextPack raw2) :
    runQaAgent collab raw1 = runQaAgent collab raw2 := by
  unfold runQaAgent
  rw [h]

/-- Witness for C1: two distinct raw inputs (differing by trailing
whitespace) curate to the same `ContextPack`, and the two runs coincide. -/
theorem runQaAgent_isolation_witness :
    buildContextPack "Error: x" = buildContextPack "Error: x " ∧
    runQaAgent constCollab "Error: x" = runQaAgent constCollab "Error: x " :=
  ⟨by decide, runQaAgent_isolation constCollab "Error: x" "Error: x " (by decide)⟩

/-- C2: the size budget is violated by the code.  For the 280-character
error line `"error"` followed by 275 `U+0001` characters (each JSON-escaped
to the six characters `\u0001`), the serialized curated record has length
1682 > 1200: the trimming loop can only drop frames and never shortens the
`error` (or `suspectedFile`) part of the serialization. -/
theorem buildContextPack_budget_violation :
    1200 < (serCP (buildContextPack c2FailingInput)).length ∧
    (serCP (buildContextPack c2FailingInput)).length = 1682 := by decide

/-- C3: abort on diagnosis failure.  If the Reasoning collaborator's
diagnosis operation fails, the Execution collaborator and the verification
operation are never invoked, and the run surfaces exactly the single
originating error with no (partial) `AgentRunResult`. -/
theorem runQaAgent_abort_on_diagnosis_failure (collab : Collaborators) (raw e : String)
    (h : collab.diagnoseAndPlan (buildContextPack raw) = Except.error e) :
    (∀ call ∈ (runQaAgent collab raw).1,
       (∀ s, call ≠ CollabCall.executeCall s) ∧
       (∀ c d rf ex, call ≠ CollabCall.verifyCall c d rf ex)) ∧
    (runQaAgent collab raw).2 = Except.error e := by
  have hrun : runQaAgent collab raw =
      ([CollabCall.diagnoseCall (buildContextPack raw)], Except.error e) := by
    simp only [runQaAgent]
    rw [h]
  rw [hrun]
  refine ⟨?_, rfl⟩
  intro call hc
  simp only [List.mem_singleton] at hc
  subst hc
  exact ⟨fun s hs => CollabCall.noConfusion hs, fun c d rf ex hv => CollabCall.noConfusion hv⟩

/-- Witness for C3: a collaborator whose diagnosis always fails, on a
concrete raw input. -/
theorem runQaAgent_abort_on_diagnosis_failure_witness :
    failCollab.diagnoseAndPlan (buildContextPack "ReferenceError: y is not defined") =
      Except.error "LLM error (500): upstream failure" ∧
    ((∀ call ∈ (runQaAgent failCollab "ReferenceError: y is not defined").1,
        (∀ s, call ≠ CollabCall.executeCall s) ∧
        (∀ c d rf ex, call ≠ CollabCall.verifyCall c d rf ex)) ∧
     (runQaAgent failCollab "ReferenceError: y is not defined").2 =
       Except.error "LLM error (500): upstream failure") :=
  ⟨rfl, runQaAgent_abort_on_diagnosis_failure failCollab
    "ReferenceError: y is not defined" "LLM error (500): upstream failure" rfl⟩

/-- C4, counterexample to the claim as stated: the raw input `"hello"` has
no line containing `"error"` (case-insensitively) and no line whose trimmed
form starts with `"at "`, yet the curated error field is not the fixed
fallback placeholder — the code falls back to the first non-empty line. -/
theorem curate_fallback_counterexample :
    (∀ l ∈ splitLines "hello".data, containsSub errorPat (toLowerL l) = false) ∧
    (∀ l ∈ splitLines "hello".data, startsWithL (jsTrim l) atPat = false) ∧
    (buildContextPack "hello").error ≠ "UnknownError: No error message found" := by decide

/-- C4 as amended: for raw input with no `"error"` line (case-insensitive)
and no `at `-prefixed line, `curate` returns empty `topFrames`, no
`suspectedFile`, and an error field equal to the trimmed first non-empty
line truncated to 280 characters — the fixed placeholder exactly when every
line is blank. -/
theorem buildContextPack_fallback_amended (raw : String)
    (h1 : ∀ l ∈ splitLines raw.data, containsSub errorPat (toLowerL l) = false)
    (h2 : ∀ l ∈ splitLines raw.data, startsWithL (jsTrim l) atPat = false) :
    (buildContextPack raw).topFrames = [] ∧
    (buildContextPack raw).suspectedFile = none ∧
    (buildContextPack raw).error =
      String.mk ((jsTrim ((firstNonEmpty (splitLines raw.data)).getD fallbackMsg)).take 280) := by
  have hf : extractStackFrames (splitLines raw.data) = [] := extractStackFrames_eq_nil _ h2
  have he : extractErrorMessage (splitLines raw.data) =
      (jsTrim ((firstNonEmpty (splitLines raw.data)).getD fallbackMsg)).take 280 := by
    unfold extractErrorMessage
    rw [findErrorLine_eq_none _ h1]
  simp only [buildContextPack, hf, he]
  unfold enforceBudget
  split <;> simp [guessSuspectedFile, trimFrames]

/-- Witness for C4 (amended): a plain-text input with no error keyword and
no frames. -/
theorem buildContextPack_fallback_amended_witness :
    (∀ l ∈ splitLines "just some plain text".data, containsSub errorPat (toLowerL l) = false) ∧
    (∀ l ∈ splitLines "just some plain text".data, startsWithL (jsTrim l) atPat = false) ∧
    ((buildContextPack "just some plain text").topFrames = [] ∧
     (buildContextPack "just some plain text").suspectedFile = none ∧
     (buildContextPack "just some plain text").error =
       String.mk ((jsTrim ((firstNonEmpty (splitLines "just some plain text".data)).getD
         fallbackMsg)).take 280)) :=
  ⟨by decide, by decide, buildContextPack_fallback_amended "just some plain text"
    (by decide) (by decide)⟩

/-- C5: frame bound.  For every raw input, the curated record keeps at most
5 stack frames: the pre-budget selection takes at most `MAX_FRAMES` frames
and the budget trimming only ever removes frames. -/
theorem buildContextPack_topFrames_le_five (raw : String) :
    (buildContextPack raw).topFrames.length ≤ 5 := by
  have h1 := enforceBudget_topFrames_length
    (String.mk (extractErrorMessage (splitLines raw.data)))
    ((extractStackFrames (splitLines raw.data)).map String.mk)
    ((guessSuspectedFile (extractStackFrames (splitLines raw.data))).map String.mk)
  have h2 := extractStackFrames_length_le (splitLines raw.data)
  simp only [buildContextPack]
  simp only [List.length_map] at h1
  exact h1.trans h2

/-- C6: worked example.  On the spec's example stack trace the curated
record has error `"TypeError: x"`, exactly the one non-vendor frame (the
`node_modules` frame is excluded), and suspected file `"/app/src/a.ts"`. -/
theorem buildContextPack_worked_example :
    buildContextPack "TypeError: x\n    at foo (/app/src/a.ts:1:1)\n    at node_modules/bar.js:2:2" =
      ⟨"TypeError: x", ["at foo (/app/src/a.ts:1:1)"], some "/app/src/a.ts"⟩ := by decide

/-- C7: no short-circuit on success.  Whenever diagnosis succeeds — in
particular in every run whose Execution collaborator reports
`success = true` — the orchestrator still invokes the verification
operation (with the execution outcome among its arguments) before
returning. -/
theorem runQaAgent_verify_on_success (collab : Collaborators) (raw : String)
    (payload : DiagnosePayload)
    (h : collab.diagnoseAndPlan (buildContextPack raw) = Except.ok payload)
    (hs : (runInSandbox payload.reproAndFix.reproSteps).success = true) :
    CollabCall.verifyCall (buildContextPack raw) payload.diagnosis payload.reproAndFix
      (runInSandbox payload.reproAndFix.reproSteps) ∈ (runQaAgent collab raw).1 := by
  simp only [runQaAgent]
  rw [h]
  cases hv : collab.verifyFixWithLlm (buildContextPack raw) payload.diagnosis
      payload.reproAndFix (runInSandbox payload.reproAndFix.reproSteps) <;>
    simp [hv]

/-- Witness for C7: a collaborator whose repro steps contain the sandbox
success keyword, so the execution reports success, and the verification
call is in the trace. -/
theorem runQaAgent_verify_on_success_witness :
    greenCollab.diagnoseAndPlan (buildContextPack "Error: z") = Except.ok greenPayload ∧
    (runInSandbox greenPayload.reproAndFix.reproSteps).success = true ∧
    CollabCall.verifyCall (buildContextPack "Error: z") greenPayload.diagnosis
      greenPayload.reproAndFix (runInSandbox greenPayload.reproAndFix.reproSteps) ∈
      (runQaAgent greenCollab "Error: z").1 :=
  ⟨rfl, by decide,
   runQaAgent_verify_on_success greenCollab "Error: z" greenPayload rfl (by decide)⟩

/-- C8: determinism of curation.  `buildContextPack` is a pure function of
its input: identical raw inputs yield identical `ContextPack`s in every
field. -/
theorem buildContextPack_deterministic (raw1 raw2 : String) (h : raw1 = raw2) :
    buildContextPack raw1 = buildContextPack raw2 := by rw [h]

/-- Witness for C8 at a concrete input. -/
theorem buildContextPack_deterministic_witness :
    ("Error: w" : String) = "Error: w" ∧
    buildContextPack "Error: w" = buildContextPack "Error: w" :=
  ⟨rfl, buildContextPack_deterministic "Error: w" "Error: w" rfl⟩

/-- C9: mock execution characterization.  `runInSandbox` is total, and
returns `success = true` exactly when the lowercased repro steps contain
`"tests green"` or `"no error"`: the success keywords take precedence over
the failure keywords (`"still failing"`, `"throws"`), and with neither
class of keyword the default branch reports failure. -/
theorem runInSandbox_success_iff_keywords (reproSteps : String) :
    (runInSandbox reproSteps).success =
      (containsSub "tests green".data (toLowerL reproSteps.data) ||
       containsSub "no error".data (toLowerL reproSteps.data)) := by
  simp only [runInSandbox]
  cases h : containsSub "tests green".data (toLowerL reproSteps.data) ||
      containsSub "no error".data (toLowerL reproSteps.data) <;>
    simp [h]

/-- C10: the suspected file survives frame trimming.  On `c10Raw` the
oversized error line forces the budget trimmer to drop every frame, yet
`suspectedFile` — computed from the frames selected before budget
enforcement — is still present (and is a substring of no remaining frame,
the frame list being empty). -/
theorem buildContextPack_suspectedFile_survives_trim :
    (buildContextPack c10Raw).topFrames = [] ∧
    (buildContextPack c10Raw).suspectedFile = some "/a.ts" := by decide
